import Mathlib

/-!
Verification development for the CHARRA remote-attestation programs
(attester.c, verifier.c, cli_util_verifier.c, charra_key_mgr.c).

The C sources are shallowly embedded: each fallible call made by a handler
is represented by its outcome recorded in an environment record, and the
handler's control flow (the chain of `if`/`goto cleanup` statements) is
translated into nested `if` expressions over those outcomes.  Machine
integers are modelled as `Nat` with explicit `% 2^w` where the C code can
overflow.
-/

/-- Result codes of the CHARRA library (`CHARRA_RC` in charra_error.h; the
header is not part of the sources, but these six values are the ones used
by verifier.c and attester.c). -/
inductive CHARRA_RC where
  | success
  | error
  | cliError
  | coapError
  | timeout
  | verificationFailed
deriving DecidableEq, Repr

/-- `sizeof(TPMU_HA)`: the size in bytes of the largest TPM hash digest
(SHA-512, 64 bytes).  The TSS header is external; the value follows the
spec: nonce length is bounded by "size of the largest TPM hash digest
(typically 64)". -/
def sizeof_TPMU_HA : Nat := 64

/- ------------------------------------------------------------------ -/
/- Attester endpoint: `coap_attest_handler` in attester.c             -/
/- ------------------------------------------------------------------ -/

/-- Outcomes of the external calls made by the attester's
`coap_attest_handler` (attester.c, lines 146-297), in program order:
`coap_get_data_large`, `unmarshal_attestation_request`, the received
nonce length, `charra_pcr_selections_to_tpm_pcr_selections`,
`Esys_Initialize`, `charra_load_tpm2_key`, `tpm2_quote`, and
`coap_add_data_large_response`. -/
structure AttesterEnv where
  get_data_ok : Bool
  unmarshal_ok : Bool
  nonce_len : Nat
  pcr_selection_ok : Bool
  esys_init_ok : Bool
  load_key_ok : Bool
  quote_ok : Bool
  add_response_ok : Bool
deriving DecidableEq, Repr

/-- The exit path taken by the attester handler.  `respond b` is the
fall-through path that prepares and sends the response (`b` records
whether `coap_add_data_large_response` succeeded); all other
constructors are the `goto error` paths, named after the failing step. -/
inductive AttesterExit where
  | getDataFail
  | decodeFail
  | nonceTooLong
  | pcrSelectionFail
  | esysInitFail
  | loadKeyFail
  | quoteFail
  | respond (send_ok : Bool)
deriving DecidableEq, Repr

/-- State of the TPM signing-key handle held by the attester handler:
whether `sig_key_handle` currently refers to a loaded key
(i.e. differs from `ESYS_TR_NONE`), and how many times
`Esys_FlushContext` has been called on it. -/
structure TpmHandleState where
  sig_key_handle_loaded : Bool
  flush_calls : Nat
deriving DecidableEq, Repr

/-- The cleanup epilogue at label `error:` in attester.c (lines 284-291):
flush the signing-key handle iff it is not `ESYS_TR_NONE`. -/
def attester_cleanup (s : TpmHandleState) : TpmHandleState :=
  if s.sig_key_handle_loaded then
    { sig_key_handle_loaded := false, flush_calls := s.flush_calls + 1 }
  else s

/-- The attester's `coap_attest_handler` (attester.c, lines 146-297),
as a function from the outcomes of its external calls to the exit path
taken and the final state of the TPM signing-key handle.  Every exit
path in the C function reaches the `error:` label (the success path
falls through into it), so every branch ends in `attester_cleanup`. -/
def attester_coap_attest_handler (env : AttesterEnv) :
    AttesterExit × TpmHandleState :=
  let s0 : TpmHandleState := { sig_key_handle_loaded := false, flush_calls := 0 }
  if env.get_data_ok = false then (.getDataFail, attester_cleanup s0)
  else if env.unmarshal_ok = false then (.decodeFail, attester_cleanup s0)
  else if env.nonce_len > sizeof_TPMU_HA then (.nonceTooLong, attester_cleanup s0)
  else if env.pcr_selection_ok = false then (.pcrSelectionFail, attester_cleanup s0)
  else if env.esys_init_ok = false then (.esysInitFail, attester_cleanup s0)
  else if env.load_key_ok = false then (.loadKeyFail, attester_cleanup s0)
  else
    let s1 : TpmHandleState := { sig_key_handle_loaded := true, flush_calls := 0 }
    if env.quote_ok = false then (.quoteFail, attester_cleanup s1)
    else (.respond env.add_response_ok, attester_cleanup s1)

/-- Whether the handler run described by `env` reaches and succeeds at
`charra_load_tpm2_key`, i.e. whether a signing-key handle gets loaded. -/
def attester_key_loaded (env : AttesterEnv) : Bool :=
  env.get_data_ok && env.unmarshal_ok && decide (env.nonce_len ≤ sizeof_TPMU_HA) &&
    env.pcr_selection_ok && env.esys_init_ok && env.load_key_ok

/- ------------------------------------------------------------------ -/
/- Verifier endpoint: `coap_attest_handler` in verifier.c             -/
/- ------------------------------------------------------------------ -/

/-- The decoded attestation response
(`charra_tap_msg_attestation_response_dto`), restricted to the fields
the verifier handler branches on or copies: the declared lengths and
raw bytes of the attestation data and the signature. -/
structure TapResponse where
  attestation_data_len : Nat
  attestation_data : List Nat
  tpm2_signature_len : Nat
  tpm2_signature : List Nat
deriving DecidableEq, Repr

/-- Outcomes of the external calls made by the verifier's
`coap_attest_handler` (verifier.c, lines 525-813), in program order:
`coap_get_data_large`, `charra_tap_unmarshal_attestation_response`
(with the decoded response), `Tss2_TctiLdr_Initialize`,
`Esys_Initialize`, `charra_load_external_public_key`,
`charra_verify_tpm2_quote_signature_with_tpm`,
`charra_crypto_tpm_pub_key_to_mbedtls_pub_key`,
`charra_crypto_rsa_verify_signature`, `charra_unmarshal_tpm2_quote`,
`charra_verify_tpm2_magic`, `charra_verify_tpm2_quote_qualifying_data`,
and `charra_check_pcr_digest_against_reference`. -/
structure VerifierEnv where
  get_data_ok : Bool
  unmarshal_rc : CHARRA_RC
  res : TapResponse
  tcti_init_ok : Bool
  esys_init_ok : Bool
  load_key_rc : CHARRA_RC
  tpm_verify_rc : CHARRA_RC
  convert_key_rc : CHARRA_RC
  mbedtls_verify_rc : CHARRA_RC
  unmarshal_quote_rc : CHARRA_RC
  magic_valid : Bool
  nonce_valid : Bool
  pcr_check_rc : CHARRA_RC
deriving DecidableEq, Repr

/-- Result of one run of the verifier handler: the final value of the
global `attestation_rc` (which `main` adopts as the process result once
the response is processed), and, if the handler reached the
"prepare verification" step, the byte copies it made into the
fixed-size `TPM2B_ATTEST` and `TPMT_SIGNATURE` structures. -/
structure VerifierOutcome where
  rc : CHARRA_RC
  copies : Option (List Nat × List Nat)
deriving DecidableEq, Repr

/-- The verifier's `coap_attest_handler` (verifier.c, lines 525-813) as a
function of the outcomes of its external calls.  `maxAttest` and
`maxSig` stand for the platform constants `sizeof(TPM2B_ATTEST)` and
`sizeof(TPMT_SIGNATURE)`.  The two `memcpy` calls of the
"prepare verification" block (lines 619-625) are modelled by
`List.take` of the declared lengths.  Mirroring the C control flow:
the TPM-path signature check and the mbedTLS-path check each assign
`attestation_rc` but do not jump, and only the TPM-path result is kept
in a flag; the final verdict (lines 762-777) overwrites
`attestation_rc` with `success` or `verificationFailed` depending on
the conjunction of the signature, nonce and PCR flags. -/
def verifier_coap_attest_handler (maxAttest maxSig : Nat)
    (env : VerifierEnv) : VerifierOutcome :=
  if env.get_data_ok = false then { rc := .error, copies := none }
  else if env.unmarshal_rc ≠ .success then { rc := env.unmarshal_rc, copies := none }
  else if env.res.attestation_data_len > maxAttest then { rc := .error, copies := none }
  else if env.res.tpm2_signature_len > maxSig then { rc := .error, copies := none }
  else if env.tcti_init_ok = false then { rc := .error, copies := none }
  else if env.esys_init_ok = false then { rc := .error, copies := none }
  else if env.load_key_rc ≠ .success then { rc := env.load_key_rc, copies := none }
  else
    let attest_copy := env.res.attestation_data.take env.res.attestation_data_len
    let sig_copy := env.res.tpm2_signature.take env.res.tpm2_signature_len
    let copies := some (attest_copy, sig_copy)
    let attestation_result_signature := env.tpm_verify_rc = .success
    if env.convert_key_rc ≠ .success then { rc := env.convert_key_rc, copies := copies }
    else
      let _mbedtls_path_result := env.mbedtls_verify_rc = .success
      if env.unmarshal_quote_rc ≠ .success then
        { rc := env.unmarshal_quote_rc, copies := copies }
      else
        let _attestation_result_tpm2_magic := env.magic_valid
        let attestation_result_nonce := env.nonce_valid
        let attestation_result_pcrs := env.pcr_check_rc = .success
        let attestation_result : Bool := attestation_result_signature &&
          attestation_result_nonce && attestation_result_pcrs
        if attestation_result then { rc := .success, copies := copies }
        else { rc := .verificationFailed, copies := copies }

/-- Whether the run described by `env` reaches the final verdict
computation of the verifier handler (all earlier fallible steps
succeeded and both length checks passed). -/
def verifier_reaches_verdict (maxAttest maxSig : Nat) (env : VerifierEnv) : Prop :=
  env.get_data_ok = true ∧ env.unmarshal_rc = .success ∧
  env.res.attestation_data_len ≤ maxAttest ∧
  env.res.tpm2_signature_len ≤ maxSig ∧
  env.tcti_init_ok = true ∧ env.esys_init_ok = true ∧
  env.load_key_rc = .success ∧ env.convert_key_rc = .success ∧
  env.unmarshal_quote_rc = .success

/- ------------------------------------------------------------------ -/
/- Verifier main: timeout option and response wait loop               -/
/- ------------------------------------------------------------------ -/

/-- `strtoul(s, &end, 10)` of libc on a string, restricted to the
leading-decimal-digit prefix: returns the parsed value and the number
of characters consumed (`end - s`). -/
def strtoul10 (s : List Char) : Nat × Nat :=
  let ds := s.takeWhile (fun c => c.isDigit)
  (ds.foldl (fun a c => a * 10 + (c.toNat - 48)) 0, ds.length)

/-- `charra_cli_verifier_timeout` (cli_util_verifier.c, lines 289-301):
parse the option argument with `strtoul`, truncate to `uint16_t`, and
reject the value iff it is 0 or no characters were consumed.  Returns
the accepted timeout value in seconds, or `none` on rejection. -/
def charra_cli_verifier_timeout (optarg : List Char) : Option Nat :=
  let parsed := strtoul10 optarg
  let t := parsed.1 % 65536
  if t = 0 ∨ parsed.2 = 0 then none else some t

/-- The verifier `main`'s response wait loop (verifier.c, lines 410-434),
under the premise of claim C4 that no response is processed and CoAP
I/O stays pending, so the loop keeps iterating.  `io_times` is the
sequence of values returned by `coap_io_process` (elapsed milliseconds,
error iterations excluded); `w` is the running value of the `uint16_t`
accumulator `response_wait_time`, so the addition wraps modulo 2^16.
The loop exits with `CHARRA_RC_TIMEOUT` iff the wrapped accumulator
reaches `attestation_response_timeout * 1000`; `none` means the
modelled iterations ended without the timeout exit having fired. -/
def verifier_response_wait_loop (timeout_s : Nat) :
    Nat → List Nat → Option CHARRA_RC
  | _, [] => none
  | w, t :: ts =>
    let w2 := (w + t) % 65536
    if w2 ≥ timeout_s * 1000 then some .timeout
    else verifier_response_wait_loop timeout_s w2 ts

/- ------------------------------------------------------------------ -/
/- Verifier CLI: PCR selection parsing                                -/
/- ------------------------------------------------------------------ -/

/-- `TPM2_MAX_PCRS`: number of PCRs in a bank (indices 0..23). -/
def TPM2_MAX_PCRS : Nat := 24

/-- `TPM2_PCR_BANK_COUNT`: the four banks sha1, sha256, sha384, sha512. -/
def TPM2_PCR_BANK_COUNT : Nat := 4

/-- One step of `charra_cli_verifier_strtok` (cli_util_verifier.c,
lines 354-382) on a non-saveptr call: `none` when the remaining string
is empty (the C function returns `NULL`); otherwise the token up to the
first delimiter occurrence and the remainder after it (the remainder is
the empty string when no delimiter occurs, matching `*saveptr = str`
at the end of the scanned token). -/
def charra_strtok_step (d : Char) (s : List Char) :
    Option (List Char × List Char) :=
  if s = [] then none
  else
    let tok := s.takeWhile (fun c => c ≠ d)
    match s.dropWhile (fun c => c ≠ d) with
    | [] => some (tok, [])
    | _ :: rest => some (tok, rest)

theorem charra_length_dropWhile_le {α : Type} (p : α → Bool) (l : List α) :
    (l.dropWhile p).length ≤ l.length := by
  induction l with
  | nil => simp [List.dropWhile]
  | cons a l ih =>
    simp only [List.dropWhile]
    cases p a <;> simp <;> omega

/-- The token sequence produced by iterating `charra_cli_verifier_strtok`
with delimiter `d` until it returns `NULL`, as in the `while` loops of
`charra_cli_verifier_parse_pcr_bank` and
`charra_cli_verifier_parse_pcr_selection`.  Note the asymmetry of the
source: an empty input yields no token, and a trailing delimiter does
not yield a final empty token, but interior empty tokens do occur. -/
def charra_strtok_all (d : Char) (s : List Char) : List (List Char) :=
  if h : s = [] then []
  else
    let tok := s.takeWhile (fun c => c ≠ d)
    match hrest : s.dropWhile (fun c => c ≠ d) with
    | [] => [tok]
    | _ :: rest => tok :: charra_strtok_all d rest
termination_by s.length
decreasing_by
  have hle : (s.dropWhile (fun c => c ≠ d)).length ≤ s.length :=
    charra_length_dropWhile_le (fun c => c ≠ d) s
  rw [hrest] at hle
  simp only [List.length_cons] at hle
  omega

/-- The hash-set filling loop of `charra_cli_verifier_parse_pcr_bank`
(cli_util_verifier.c, lines 399-413): each token is parsed as an
unsigned long via `charra_cli_util_common_parse_option_as_ulong`
(cli_util_common.c is not among the sources, so the token parser is a
parameter `parseTok`); values `≥ TPM2_MAX_PCRS` are rejected; accepted
values mark their slot in the hash set. -/
def charra_pcr_hash_set (parseTok : List Char → Option Nat) :
    List (List Char) → (Nat → Bool) → Option (Nat → Bool)
  | [], hset => some hset
  | tok :: toks, hset =>
    match parseTok tok with
    | none => none
    | some v =>
      if v ≥ TPM2_MAX_PCRS then none
      else charra_pcr_hash_set parseTok toks
        (fun i => if i = v then true else hset i)

/-- `charra_cli_verifier_parse_pcr_bank` (cli_util_verifier.c, lines
384-424).  The returned list is the written prefix of the bank array
`tpm_pcr_selection_bank` of length `*tpm_pcr_selection_len`.  On the
special input "all" the source executes `tpm_pcr_selection_bank[i] =
true` for every `i` and sets the length to `TPM2_MAX_PCRS`, so the bank
holds the value 1 (`true`) in all 24 slots; otherwise the comma-split
tokens fill a hash set which is then emitted in ascending index
order.  `none` is the `-1` (parse failure) return. -/
def charra_cli_verifier_parse_pcr_bank (parseTok : List Char → Option Nat)
    (pcr_list : List Char) : Option (List Nat) :=
  if pcr_list = "all".toList then
    some (List.replicate TPM2_MAX_PCRS 1)
  else
    match charra_pcr_hash_set parseTok (charra_strtok_all ',' pcr_list)
        (fun _ => false) with
    | none => none
    | some hset => some ((List.range TPM2_MAX_PCRS).filter hset)

/-- `charra_cli_verifier_parse_pcr_bank_to_index` (cli_util_verifier.c,
lines 426-438): map a bank name to its index, `-1` if unknown. -/
def charra_cli_verifier_parse_pcr_bank_to_index (pcr_bank : List Char) : Int :=
  if pcr_bank = "sha1".toList then 0
  else if pcr_bank = "sha256".toList then 1
  else if pcr_bank = "sha384".toList then 2
  else if pcr_bank = "sha512".toList then 3
  else -1

/-- The bank traversal of `charra_cli_verifier_parse_pcr_selection`
(cli_util_verifier.c, lines 440-473): each '+'-separated token is split
at the first ':' into a bank name and a PCR list; an empty token
("no bank defined"), an unknown bank name, or a failing bank parse
aborts with `-1` (`none`); otherwise the bank's slot in the
4-element selection array is overwritten. -/
def charra_parse_pcr_selection_banks (parseTok : List Char → Option Nat) :
    List (List Char) → List (List Nat) → Option (List (List Nat))
  | [], banks => some banks
  | bt :: bts, banks =>
    match charra_strtok_step ':' bt with
    | none => none
    | some (bank_name, pcr_list) =>
      let b := charra_cli_verifier_parse_pcr_bank_to_index bank_name
      if b < 0 ∨ b ≥ (TPM2_PCR_BANK_COUNT : Int) then none
      else
        match charra_cli_verifier_parse_pcr_bank parseTok pcr_list with
        | none => none
        | some bank =>
          charra_parse_pcr_selection_banks parseTok bts (banks.set b.toNat bank)

/-- `charra_cli_verifier_parse_pcr_selection` (cli_util_verifier.c,
lines 440-473) on the selection expression. -/
def charra_cli_verifier_parse_pcr_selection (parseTok : List Char → Option Nat)
    (pcr_selections : List Char) (banks : List (List Nat)) :
    Option (List (List Nat)) :=
  charra_parse_pcr_selection_banks parseTok
    (charra_strtok_all '+' pcr_selections) banks

/- ------------------------------------------------------------------ -/
/- Verifier CLI: option handlers, argument loop, main exit mapping    -/
/- ------------------------------------------------------------------ -/

/-- mbedTLS message-digest identifiers used by the verifier CLI. -/
inductive MBEDTLS_MD where
  | sha1 | sha256 | sha384 | sha512
deriving DecidableEq, Repr

/-- TPM2 hash-algorithm identifiers used by the verifier CLI. -/
inductive TPM2_ALG where
  | sha1 | sha256 | sha384 | sha512
deriving DecidableEq, Repr

/-- `cli_config_signature_hash_algorithm` (cli_util_verifier.h): the pair
of mbedTLS and TPM2 identifiers selected by `--hash-algorithm`. -/
structure cli_config_signature_hash_algorithm where
  mbedtls_hash_algorithm : MBEDTLS_MD
  tpm2_hash_algorithm : TPM2_ALG
deriving DecidableEq, Repr

/-- `charra_cli_verifier_hash_algorithm` (cli_util_verifier.c, lines
496-519): the `strcmp` chain mapping the option argument to the
algorithm pair; any other string is rejected with `-1` (`none`). -/
def charra_cli_verifier_hash_algorithm (optarg : String) :
    Option cli_config_signature_hash_algorithm :=
  if optarg = "sha1" then
    some { mbedtls_hash_algorithm := .sha1, tpm2_hash_algorithm := .sha1 }
  else if optarg = "sha256" then
    some { mbedtls_hash_algorithm := .sha256, tpm2_hash_algorithm := .sha256 }
  else if optarg = "sha384" then
    some { mbedtls_hash_algorithm := .sha384, tpm2_hash_algorithm := .sha384 }
  else if optarg = "sha512" then
    some { mbedtls_hash_algorithm := .sha512, tpm2_hash_algorithm := .sha512 }
  else none

/-- The verifier configuration variables written by the CLI parser
(the fields of `cli_config` in verifier.c `main` that the modelled
handlers touch). -/
structure VerifierCliState where
  dst_host : String
  timeout : Nat
  attestation_public_key_path : Option String
  reference_pcr_file_path : Option String
  signature_hash_algorithm : cli_config_signature_hash_algorithm
  tpm_pcr_selection : List (List Nat)
  use_dtls_psk : Bool
  dtls_psk_identity : String
deriving DecidableEq, Repr

/-- One option returned by `getopt_long` in
`charra_parse_command_line_verifier_arguments`, with its argument and,
for handlers that consult the filesystem, the outcome of
`charra_io_file_exists`.  `pcrLog` wraps the return code of
`charra_cli_verifier_pcr_log` (it depends on
`charra_cli_util_common_split_option_string`, whose source file
cli_util_common.c is absent) and `commonOpt` the return code of
`charra_cli_util_common_parse_command_line_argument` (same absent
file; it returns 0 on success, -1 on parse error, 1 for help). -/
inductive CliOpt where
  | pskIdentity (arg : String)
  | ip (arg : String)
  | timeoutOpt (arg : String)
  | attestationPublicKey (file_exists : Bool) (path : String)
  | pcrFile (file_exists : Bool) (arg : String)
  | pcrSelection (arg : String)
  | pcrLog (rc : Int)
  | hashAlgorithm (arg : String)
  | commonOpt (rc : Int)
deriving DecidableEq, Repr

/-- `charra_cli_verifier_pcr_file` (cli_util_verifier.c, lines 315-352):
split the argument at ':' with libc `strtok` (consecutive delimiters
collapse, leading delimiters are skipped) into format and path; missing
path, a format other than "yaml", or a non-existent file is an error;
otherwise the reference PCR file path is recorded. -/
def charra_cli_verifier_pcr_file (file_exists : Bool) (arg : String)
    (s : VerifierCliState) : Int × VerifierCliState :=
  let tokens := (arg.splitOn ":").filter (fun t => t ≠ "")
  match tokens with
  | format :: path :: _ =>
    if format ≠ "yaml" then (-1, s)
    else if file_exists then
      (0, { s with reference_pcr_file_path := some path })
    else (-1, s)
  | _ => (-1, s)

/-- Dispatch of one `getopt_long` result inside the option loop of
`charra_parse_command_line_verifier_arguments` (cli_util_verifier.c,
lines 524-566), covering the handlers named in the `switch`. -/
def charra_handle_cli_option (parseTok : List Char → Option Nat)
    (o : CliOpt) (s : VerifierCliState) : Int × VerifierCliState :=
  match o with
  | .pskIdentity arg =>
    (0, { s with use_dtls_psk := true, dtls_psk_identity := arg })
  | .ip arg =>
    if arg.length > 15 then (-1, s) else (0, { s with dst_host := arg })
  | .timeoutOpt arg =>
    match charra_cli_verifier_timeout arg.toList with
    | none => (-1, s)
    | some t => (0, { s with timeout := t })
  | .attestationPublicKey file_exists path =>
    if file_exists then
      (0, { s with attestation_public_key_path := some path })
    else (-1, s)
  | .pcrFile file_exists arg => charra_cli_verifier_pcr_file file_exists arg s
  | .pcrSelection arg =>
    let cleared := List.replicate TPM2_PCR_BANK_COUNT ([] : List Nat)
    match charra_cli_verifier_parse_pcr_selection parseTok arg.toList cleared with
    | none => (-1, s)
    | some banks => (0, { s with tpm_pcr_selection := banks })
  | .pcrLog rc => (rc, s)
  | .hashAlgorithm arg =>
    match charra_cli_verifier_hash_algorithm arg with
    | none => (-1, s)
    | some algo => (0, { s with signature_hash_algorithm := algo })
  | .commonOpt rc => (rc, s)

/-- `charra_check_required_options` (cli_util_verifier.c, lines 100-115):
`-1` when the reference PCR file or the attestation public key path was
not supplied, `0` otherwise. -/
def charra_check_required_options (s : VerifierCliState) : Int :=
  if s.reference_pcr_file_path = none then -1
  else if s.attestation_public_key_path = none then -1
  else 0

/-- `charra_parse_command_line_verifier_arguments` (cli_util_verifier.c,
lines 521-569): handle options until `getopt_long` returns `-1` (the
end of `opts`), aborting as soon as a handler returns a non-zero code;
at the end run `charra_check_required_options`. -/
def charra_parse_command_line_verifier_arguments
    (parseTok : List Char → Option Nat) (opts : List CliOpt)
    (s : VerifierCliState) : Int × VerifierCliState :=
  match opts with
  | [] => (charra_check_required_options s, s)
  | o :: rest =>
    let r := charra_handle_cli_option parseTok o s
    if r.1 ≠ 0 then r
    else charra_parse_command_line_verifier_arguments parseTok rest r.2

/-- The CLI-error exit of the verifier `main` (verifier.c, lines
186-191): when the parser returns non-zero, `main` returns
`CHARRA_RC_SUCCESS` for `1` (help was printed) and
`CHARRA_RC_CLI_ERROR` otherwise; `none` means the parse succeeded and
`main` proceeds to the attestation. -/
def verifier_main_cli_result (parseTok : List Char → Option Nat)
    (opts : List CliOpt) (s : VerifierCliState) : Option CHARRA_RC :=
  let r := charra_parse_command_line_verifier_arguments parseTok opts s
  if r.1 ≠ 0 then some (if r.1 = 1 then .success else .cliError) else none

/- ------------------------------------------------------------------ -/
/- Theorems for the claims                                            -/
/- ------------------------------------------------------------------ -/

/-- C6: on every exit path of the attester's request handler, a TPM
signing-key handle that was loaded is flushed (exactly once) before
the handler returns, and no path returns with the handle still
loaded. -/
theorem C6_attester_flushes_loaded_handle_on_every_exit (env : AttesterEnv) :
    (attester_coap_attest_handler env).2.sig_key_handle_loaded = false ∧
    (attester_coap_attest_handler env).2.flush_calls =
      (if attester_key_loaded env then 1 else 0) := by
  obtain ⟨gd, um, nl, ps, ei, lk, q, ar⟩ := env
  by_cases h : nl > sizeof_TPMU_HA <;>
  cases gd <;> cases um <;> cases ps <;> cases ei <;> cases lk <;> cases q <;>
    simp [attester_coap_attest_handler, attester_cleanup, attester_key_loaded,
      h, Nat.not_lt.mp, le_of_not_lt] <;>
    try (split <;> omega)

/-- C3 counterexample: a request whose nonce has length 0, with every
other step of the attester handler succeeding, is not rejected: the
handler reaches the response path (quote is produced and the response
is sent), so the claimed lower-bound rejection does not exist in
attester.c. -/
theorem C3_counterexample_zero_length_nonce_is_quoted :
    (attester_coap_attest_handler
      { get_data_ok := true, unmarshal_ok := true, nonce_len := 0,
        pcr_selection_ok := true, esys_init_ok := true, load_key_ok := true,
        quote_ok := true, add_response_ok := true }).1 =
      AttesterExit.respond true ∧
    (attester_coap_attest_handler
      { get_data_ok := true, unmarshal_ok := true, nonce_len := 0,
        pcr_selection_ok := true, esys_init_ok := true, load_key_ok := true,
        quote_ok := true, add_response_ok := true }).1 ≠
      AttesterExit.nonceTooLong := by decide

/-- C3 amended: the attester imposes no lower bound on the nonce length;
a zero-length nonce never triggers the nonce check (which only rejects
`nonce_len > sizeof(TPMU_HA)`), and when the remaining steps succeed
the request is quoted and answered. -/
theorem C3_zero_length_nonce_not_rejected (env : AttesterEnv)
    (h0 : env.nonce_len = 0) :
    (attester_coap_attest_handler env).1 ≠ AttesterExit.nonceTooLong ∧
    (env.get_data_ok = true → env.unmarshal_ok = true →
      env.pcr_selection_ok = true → env.esys_init_ok = true →
      env.load_key_ok = true → env.quote_ok = true →
      (attester_coap_attest_handler env).1 =
        AttesterExit.respond env.add_response_ok) := by
  obtain ⟨gd, um, nl, ps, ei, lk, q, ar⟩ := env
  simp only at h0
  subst h0
  cases gd <;> cases um <;> cases ps <;> cases ei <;> cases lk <;> cases q <;>
    simp [attester_coap_attest_handler, sizeof_TPMU_HA]

theorem C3_zero_length_nonce_not_rejected_witness :
    (attester_coap_attest_handler
      { get_data_ok := true, unmarshal_ok := true, nonce_len := 0,
        pcr_selection_ok := false, esys_init_ok := true, load_key_ok := true,
        quote_ok := true, add_response_ok := true }).1 ≠
      AttesterExit.nonceTooLong :=
  (C3_zero_length_nonce_not_rejected
    { get_data_ok := true, unmarshal_ok := true, nonce_len := 0,
      pcr_selection_ok := false, esys_init_ok := true, load_key_ok := true,
      quote_ok := true, add_response_ok := true } rfl).1

/-- C7: once the request is decoded, the attester rejects it with the
nonce-too-long error exactly when the nonce length exceeds
`sizeof(TPMU_HA)`; at the boundary, a nonce of exactly
`sizeof(TPMU_HA)` bytes is accepted and quoted, and one of
`sizeof(TPMU_HA) + 1` bytes is rejected. -/
theorem C7_nonce_rejected_iff_longer_than_max_digest (env : AttesterEnv)
    (hg : env.get_data_ok = true) (hu : env.unmarshal_ok = true) :
    ((attester_coap_attest_handler env).1 = AttesterExit.nonceTooLong ↔
      env.nonce_len > sizeof_TPMU_HA) ∧
    (env.nonce_len = sizeof_TPMU_HA → env.pcr_selection_ok = true →
      env.esys_init_ok = true → env.load_key_ok = true → env.quote_ok = true →
      (attester_coap_attest_handler env).1 =
        AttesterExit.respond env.add_response_ok) ∧
    (env.nonce_len = sizeof_TPMU_HA + 1 →
      (attester_coap_attest_handler env).1 = AttesterExit.nonceTooLong) := by
  obtain ⟨gd, um, nl, ps, ei, lk, q, ar⟩ := env
  simp only at hg hu
  subst hg; subst hu
  by_cases h : nl > sizeof_TPMU_HA
  · simp [attester_coap_attest_handler, h]
    omega
  · cases ps <;> cases ei <;> cases lk <;> cases q <;>
      simp [attester_coap_attest_handler, h] <;> omega

theorem C7_nonce_rejected_iff_longer_than_max_digest_witness :
    (attester_coap_attest_handler
      { get_data_ok := true, unmarshal_ok := true, nonce_len := 64,
        pcr_selection_ok := true, esys_init_ok := true, load_key_ok := true,
        quote_ok := true, add_response_ok := true }).1 =
      AttesterExit.respond true ∧
    (attester_coap_attest_handler
      { get_data_ok := true, unmarshal_ok := true, nonce_len := 65,
        pcr_selection_ok := true, esys_init_ok := true, load_key_ok := true,
        quote_ok := true, add_response_ok := true }).1 =
      AttesterExit.nonceTooLong :=
  ⟨(C7_nonce_rejected_iff_longer_than_max_digest
      { get_data_ok := true, unmarshal_ok := true, nonce_len := 64,
        pcr_selection_ok := true, esys_init_ok := true, load_key_ok := true,
        quote_ok := true, add_response_ok := true } rfl rfl).2.1
      rfl rfl rfl rfl rfl,
   (C7_nonce_rejected_iff_longer_than_max_digest
      { get_data_ok := true, unmarshal_ok := true, nonce_len := 65,
        pcr_selection_ok := true, esys_init_ok := true, load_key_ok := true,
        quote_ok := true, add_response_ok := true } rfl rfl).2.2 rfl⟩

/-- C1 counterexample: a response for which the TPM-path signature,
nonce binding and PCR-digest checks all succeed but the TPM magic
check fails is still judged `CHARRA_RC_SUCCESS` (Attested) by the
verifier handler, because the verdict at verifier.c lines 762-766
conjoins only the signature, nonce and PCR flags and omits
`attestation_result_tpm2_magic`. -/
theorem C1_counterexample_magic_failure_still_attested :
    (verifier_coap_attest_handler 2600 1024
      { get_data_ok := true, unmarshal_rc := .success,
        res := { attestation_data_len := 0, attestation_data := [],
                 tpm2_signature_len := 0, tpm2_signature := [] },
        tcti_init_ok := true, esys_init_ok := true, load_key_rc := .success,
        tpm_verify_rc := .success, convert_key_rc := .success,
        mbedtls_verify_rc := .success, unmarshal_quote_rc := .success,
        magic_valid := false, nonce_valid := true,
        pcr_check_rc := .success }).rc = CHARRA_RC.success ∧
    CHARRA_RC.success ≠ CHARRA_RC.verificationFailed := by decide

/-- C1 amended: on every run that reaches the verdict computation, the
verifier's final verdict is the logical AND of three predicates —
TPM-path signature validity, nonce binding, and PCR-digest reference
match.  The TPM magic check is computed and logged but does not
influence the verdict: changing its outcome never changes the
handler's result. -/
theorem C1_verdict_is_and_of_three_predicates (maxAttest maxSig : Nat)
    (env : VerifierEnv)
    (h : verifier_reaches_verdict maxAttest maxSig env) :
    (verifier_coap_attest_handler maxAttest maxSig env).rc =
      (if (decide (env.tpm_verify_rc = .success) && env.nonce_valid &&
            decide (env.pcr_check_rc = .success)) = true
        then CHARRA_RC.success else CHARRA_RC.verificationFailed) ∧
    (∀ b : Bool,
      verifier_coap_attest_handler maxAttest maxSig
        { env with magic_valid := b } =
      verifier_coap_attest_handler maxAttest maxSig env) := by
  obtain ⟨h1, h2, h3, h4, h5, h6, h7, h8, h9⟩ := h
  constructor
  · simp only [verifier_coap_attest_handler, h1, h2, h3, h4, h5, h6, h7, h8, h9,
      Nat.not_lt.mpr, Bool.and_eq_true, decide_eq_true_eq]
    simp [Nat.not_lt.mpr h3, Nat.not_lt.mpr h4]
    split <;> simp_all
  · intro b
    rfl

theorem C1_verdict_is_and_of_three_predicates_witness :
    (verifier_coap_attest_handler 2600 1024
      { get_data_ok := true, unmarshal_rc := .success,
        res := { attestation_data_len := 0, attestation_data := [],
                 tpm2_signature_len := 0, tpm2_signature := [] },
        tcti_init_ok := true, esys_init_ok := true, load_key_rc := .success,
        tpm_verify_rc := .success, convert_key_rc := .success,
        mbedtls_verify_rc := .success, unmarshal_quote_rc := .success,
        magic_valid := true, nonce_valid := false,
        pcr_check_rc := .success }).rc = CHARRA_RC.verificationFailed :=
  (C1_verdict_is_and_of_three_predicates 2600 1024
    { get_data_ok := true, unmarshal_rc := .success,
      res := { attestation_data_len := 0, attestation_data := [],
               tpm2_signature_len := 0, tpm2_signature := [] },
      tcti_init_ok := true, esys_init_ok := true, load_key_rc := .success,
      tpm_verify_rc := .success, convert_key_rc := .success,
      mbedtls_verify_rc := .success, unmarshal_quote_rc := .success,
      magic_valid := true, nonce_valid := false, pcr_check_rc := .success }
    ⟨rfl, rfl, by simp, by simp, rfl, rfl, rfl, rfl, rfl⟩).1

/-- C2: once the public key has been converted to software (mbedTLS)
form successfully, the outcome of the software signature-verification
path never changes the handler's result, and on runs that reach the
verdict the result depends only on the TPM-path signature result, the
nonce binding, and the PCR-digest match. -/
theorem C2_software_signature_path_is_advisory (maxAttest maxSig : Nat)
    (env : VerifierEnv) (r : CHARRA_RC)
    (hconv : env.convert_key_rc = .success) :
    verifier_coap_attest_handler maxAttest maxSig
        { env with mbedtls_verify_rc := r } =
      verifier_coap_attest_handler maxAttest maxSig env ∧
    (verifier_reaches_verdict maxAttest maxSig env →
      (verifier_coap_attest_handler maxAttest maxSig env).rc =
        (if (decide (env.tpm_verify_rc = .success) && env.nonce_valid &&
              decide (env.pcr_check_rc = .success)) = true
          then CHARRA_RC.success else CHARRA_RC.verificationFailed)) := by
  constructor
  · rfl
  · intro h
    obtain ⟨h1, h2, h3, h4, h5, h6, h7, h8, h9⟩ := h
    simp only [verifier_coap_attest_handler, h1, h2, h3, h4, h5, h6, h7, h8, h9,
      Bool.and_eq_true, decide_eq_true_eq]
    simp [Nat.not_lt.mpr h3, Nat.not_lt.mpr h4]
    split <;> simp_all

theorem C2_software_signature_path_is_advisory_witness :
    verifier_coap_attest_handler 2600 1024
      { get_data_ok := true, unmarshal_rc := .success,
        res := { attestation_data_len := 0, attestation_data := [],
                 tpm2_signature_len := 0, tpm2_signature := [] },
        tcti_init_ok := true, esys_init_ok := true, load_key_rc := .success,
        tpm_verify_rc := .success, convert_key_rc := .success,
        mbedtls_verify_rc := .error, unmarshal_quote_rc := .success,
        magic_valid := true, nonce_valid := true, pcr_check_rc := .success } =
    verifier_coap_attest_handler 2600 1024
      { get_data_ok := true, unmarshal_rc := .success,
        res := { attestation_data_len := 0, attestation_data := [],
                 tpm2_signature_len := 0, tpm2_signature := [] },
        tcti_init_ok := true, esys_init_ok := true, load_key_rc := .success,
        tpm_verify_rc := .success, convert_key_rc := .success,
        mbedtls_verify_rc := .success, unmarshal_quote_rc := .success,
        magic_valid := true, nonce_valid := true, pcr_check_rc := .success } :=
  (C2_software_signature_path_is_advisory 2600 1024
    { get_data_ok := true, unmarshal_rc := .success,
      res := { attestation_data_len := 0, attestation_data := [],
               tpm2_signature_len := 0, tpm2_signature := [] },
      tcti_init_ok := true, esys_init_ok := true, load_key_rc := .success,
      tpm_verify_rc := .success, convert_key_rc := .success,
      mbedtls_verify_rc := .success, unmarshal_quote_rc := .success,
      magic_valid := true, nonce_valid := true, pcr_check_rc := .success }
    CHARRA_RC.error rfl).1

/-- C9: the verifier handler checks the declared attestation-data length
against `sizeof(TPM2B_ATTEST)` and the declared signature length
against `sizeof(TPMT_SIGNATURE)` before performing the copies into the
fixed-size TPM structures: when either bound is exceeded it aborts
with an error and no copy is made, and whenever the copies are made
both bounds hold and each copy reads exactly the declared number of
bytes from the decoded response. -/
theorem C9_length_checks_precede_copies (maxAttest maxSig : Nat)
    (env : VerifierEnv) :
    ((env.get_data_ok = true ∧ env.unmarshal_rc = .success ∧
      (env.res.attestation_data_len > maxAttest ∨
        env.res.tpm2_signature_len > maxSig)) →
      (verifier_coap_attest_handler maxAttest maxSig env).rc = .error ∧
      (verifier_coap_attest_handler maxAttest maxSig env).copies = none) ∧
    (∀ c, (verifier_coap_attest_handler maxAttest maxSig env).copies = some c →
      env.res.attestation_data_len ≤ maxAttest ∧
      env.res.tpm2_signature_len ≤ maxSig ∧
      c.1 = env.res.attestation_data.take env.res.attestation_data_len ∧
      c.2 = env.res.tpm2_signature.take env.res.tpm2_signature_len) := by
  constructor
  · rintro ⟨h1, h2, h3⟩
    rcases h3 with h3 | h3
    · simp [verifier_coap_attest_handler, h1, h2, h3]
    · by_cases h4 : env.res.attestation_data_len > maxAttest
      · simp [verifier_coap_attest_handler, h1, h2, h3, h4]
      · simp [verifier_coap_attest_handler, h1, h2, h3, h4]
  · have haux : (verifier_coap_attest_handler maxAttest maxSig env).copies = none ∨
        ((verifier_coap_attest_handler maxAttest maxSig env).copies =
            some (env.res.attestation_data.take env.res.attestation_data_len,
                  env.res.tpm2_signature.take env.res.tpm2_signature_len) ∧
          env.res.attestation_data_len ≤ maxAttest ∧
          env.res.tpm2_signature_len ≤ maxSig) := by
      simp only [verifier_coap_attest_handler]
      repeat' split
      all_goals first
        | exact Or.inl rfl
        | exact Or.inr ⟨rfl, by omega, by omega⟩
    intro c hc
    rcases haux with haux | ⟨heq, hA, hS⟩
    · rw [haux] at hc
      exact absurd hc (by simp)
    · rw [heq] at hc
      injection hc with h
      subst h
      exact ⟨hA, hS, rfl, rfl⟩

theorem C9_length_checks_precede_copies_witness :
    (verifier_coap_attest_handler 4 4
      { get_data_ok := true, unmarshal_rc := .success,
        res := { attestation_data_len := 5, attestation_data := [1, 2, 3, 4, 5],
                 tpm2_signature_len := 0, tpm2_signature := [] },
        tcti_init_ok := true, esys_init_ok := true, load_key_rc := .success,
        tpm_verify_rc := .success, convert_key_rc := .success,
        mbedtls_verify_rc := .success, unmarshal_quote_rc := .success,
        magic_valid := true, nonce_valid := true,
        pcr_check_rc := .success }).rc = CHARRA_RC.error :=
  ((C9_length_checks_precede_copies 4 4
    { get_data_ok := true, unmarshal_rc := .success,
      res := { attestation_data_len := 5, attestation_data := [1, 2, 3, 4, 5],
               tpm2_signature_len := 0, tpm2_signature := [] },
      tcti_init_ok := true, esys_init_ok := true, load_key_rc := .success,
      tpm_verify_rc := .success, convert_key_rc := .success,
      mbedtls_verify_rc := .success, unmarshal_quote_rc := .success,
      magic_valid := true, nonce_valid := true,
      pcr_check_rc := .success }).1 ⟨rfl, rfl, Or.inl (by decide)⟩).1

/-- C4: the CLI accepts the timeout value 66 (any non-zero uint16 is
accepted), yet the response wait loop of verifier.c can never take its
timeout exit for this value: `response_wait_time` is a `uint16_t`, so
the accumulated value is always below 2^16 = 65536 < 66 * 1000 and the
comparison at verifier.c line 426 is never true.  In particular, after
33 iterations of 2000 ms (66 cumulative seconds, reaching the
configured 66-second timeout) the loop has not produced
`CHARRA_RC_TIMEOUT`, and no sequence of iteration times ever makes it
do so. -/
theorem C4_uint16_wait_counter_never_reaches_66_seconds :
    charra_cli_verifier_timeout ("66".toList) = some 66 ∧
    33 * 2000 ≥ 66 * 1000 ∧
    verifier_response_wait_loop 66 0 (List.replicate 33 2000) = none ∧
    (∀ (w : Nat) (io_times : List Nat),
      verifier_response_wait_loop 66 (w % 65536) io_times = none) := by
  have hnever : ∀ (io_times : List Nat) (w : Nat),
      verifier_response_wait_loop 66 (w % 65536) io_times = none := by
    intro io_times
    induction io_times with
    | nil => intro w; rfl
    | cons t ts ih =>
      intro w
      have hlt : (w % 65536 + t) % 65536 < 65536 := Nat.mod_lt _ (by norm_num)
      simp only [verifier_response_wait_loop]
      rw [if_neg (by omega)]
      exact ih (w % 65536 + t)
  refine ⟨by decide, by decide, ?_, fun w ts => hnever ts w⟩
  have h0 : (0 : Nat) = 0 % 65536 := rfl
  rw [h0]
  exact hnever (List.replicate 33 2000) 0

/-- C5: on the PCR-selection value "all" the bank parser of
cli_util_verifier.c executes `tpm_pcr_selection_bank[i] = true` for
every slot and sets the length to `TPM2_MAX_PCRS`, so the resulting
PCR index list is the value 1 repeated 24 times — it contains the
duplicate entry 1 twenty-four times instead of the 24 distinct indices
0..23, contradicting the sorted/duplicate-free-index invariant for
this accepted input. -/
theorem C5_pcr_selection_all_fills_bank_with_ones :
    charra_cli_verifier_parse_pcr_bank (fun _ => none) ("all".toList) =
      some (List.replicate TPM2_MAX_PCRS 1) ∧
    (List.replicate TPM2_MAX_PCRS 1).count 1 = TPM2_MAX_PCRS ∧
    2 ≤ TPM2_MAX_PCRS ∧
    (List.range TPM2_MAX_PCRS).count 1 = 1 := by
  refine ⟨?_, by decide, by decide, by decide⟩
  rfl

/-- C8: the verifier CLI's `--hash-algorithm` handler accepts exactly
the strings sha1, sha256, sha384 and sha512; for any other argument
the handler returns -1, the argument loop aborts with -1, and the
verifier `main` exits with `CHARRA_RC_CLI_ERROR`. -/
theorem C8_hash_algorithm_accepts_exactly_four :
    (∀ s : String, (charra_cli_verifier_hash_algorithm s).isSome = true ↔
      (s = "sha1" ∨ s = "sha256" ∨ s = "sha384" ∨ s = "sha512")) ∧
    (∀ (parseTok : List Char → Option Nat) (arg : String)
        (opts : List CliOpt) (st : VerifierCliState),
      charra_cli_verifier_hash_algorithm arg = none →
      verifier_main_cli_result parseTok (CliOpt.hashAlgorithm arg :: opts) st =
        some CHARRA_RC.cliError) := by
  constructor
  · intro s
    unfold charra_cli_verifier_hash_algorithm
    split_ifs with h1 h2 h3 h4 <;> simp_all
  · intro parseTok arg opts st h
    simp [verifier_main_cli_result, charra_parse_command_line_verifier_arguments,
      charra_handle_cli_option, h]

theorem C8_hash_algorithm_accepts_exactly_four_witness :
    verifier_main_cli_result (fun _ => none) [CliOpt.hashAlgorithm "md5"]
      { dst_host := "127.0.0.1", timeout := 30,
        attestation_public_key_path := none,
        reference_pcr_file_path := none,
        signature_hash_algorithm :=
          { mbedtls_hash_algorithm := .sha256, tpm2_hash_algorithm := .sha256 },
        tpm_pcr_selection := [[], [0, 1, 2, 3, 4, 5, 6, 7, 10], [], []],
        use_dtls_psk := false, dtls_psk_identity := "Charra Verifier" } =
      some CHARRA_RC.cliError :=
  C8_hash_algorithm_accepts_exactly_four.2 (fun _ => none) "md5" []
    { dst_host := "127.0.0.1", timeout := 30,
      attestation_public_key_path := none,
      reference_pcr_file_path := none,
      signature_hash_algorithm :=
        { mbedtls_hash_algorithm := .sha256, tpm2_hash_algorithm := .sha256 },
      tpm_pcr_selection := [[], [0, 1, 2, 3, 4, 5, 6, 7, 10], [], []],
      use_dtls_psk := false, dtls_psk_identity := "Charra Verifier" } rfl

/-- C10: verifier command-line parsing returns 0 only when both the
reference PCR file path and the attestation public key path have been
recorded; and when the option list has been consumed with either still
missing, the parser returns -1 and `main` exits with
`CHARRA_RC_CLI_ERROR` instead of proceeding. -/
theorem C10_required_options_gate_the_parse
    (parseTok : List Char → Option Nat) (opts : List CliOpt)
    (st : VerifierCliState) :
    ((charra_parse_command_line_verifier_arguments parseTok opts st).1 = 0 →
      ((charra_parse_command_line_verifier_arguments parseTok opts
          st).2.reference_pcr_file_path).isSome = true ∧
      ((charra_parse_command_line_verifier_arguments parseTok opts
          st).2.attestation_public_key_path).isSome = true) ∧
    ((st.reference_pcr_file_path = none ∨
        st.attestation_public_key_path = none) →
      (charra_parse_command_line_verifier_arguments parseTok [] st).1 = -1 ∧
      verifier_main_cli_result parseTok [] st = some CHARRA_RC.cliError) := by
  constructor
  · induction opts generalizing st with
    | nil =>
      intro h
      unfold charra_parse_command_line_verifier_arguments at h ⊢
      unfold charra_check_required_options at h
      split_ifs at h with hr hk
      · exact absurd h (by simp)
      · exact absurd h (by simp)
      · exact ⟨Option.isSome_iff_ne_none.mpr hr, Option.isSome_iff_ne_none.mpr hk⟩
    | cons o rest ih =>
      intro h
      unfold charra_parse_command_line_verifier_arguments at h ⊢
      by_cases hr : (charra_handle_cli_option parseTok o st).1 ≠ 0
      · rw [if_pos hr] at h
        exact absurd h hr
      · rw [if_neg hr] at h ⊢
        exact ih ((charra_handle_cli_option parseTok o st).2) h
  · intro h
    have hcheck : charra_check_required_options st = -1 := by
      unfold charra_check_required_options
      split_ifs with h1 h2
      · rfl
      · rfl
      · rcases h with h | h
        · exact absurd h h1
        · exact absurd h h2
    constructor
    · simp [charra_parse_command_line_verifier_arguments, hcheck]
    · simp [verifier_main_cli_result,
        charra_parse_command_line_verifier_arguments, hcheck]

theorem C10_required_options_gate_the_parse_witness :
    (charra_parse_command_line_verifier_arguments (fun _ => none) []
      { dst_host := "127.0.0.1", timeout := 30,
        attestation_public_key_path := none,
        reference_pcr_file_path := none,
        signature_hash_algorithm :=
          { mbedtls_hash_algorithm := .sha256, tpm2_hash_algorithm := .sha256 },
        tpm_pcr_selection := [[], [0, 1, 2, 3, 4, 5, 6, 7, 10], [], []],
        use_dtls_psk := false, dtls_psk_identity := "Charra Verifier" }).1 = -1 ∧
    verifier_main_cli_result (fun _ => none) []
      { dst_host := "127.0.0.1", timeout := 30,
        attestation_public_key_path := none,
        reference_pcr_file_path := none,
        signature_hash_algorithm :=
          { mbedtls_hash_algorithm := .sha256, tpm2_hash_algorithm := .sha256 },
        tpm_pcr_selection := [[], [0, 1, 2, 3, 4, 5, 6, 7, 10], [], []],
        use_dtls_psk := false, dtls_psk_identity := "Charra Verifier" } =
      some CHARRA_RC.cliError :=
  (C10_required_options_gate_the_parse (fun _ => none) []
    { dst_host := "127.0.0.1", timeout := 30,
      attestation_public_key_path := none,
      reference_pcr_file_path := none,
      signature_hash_algorithm :=
        { mbedtls_hash_algorithm := .sha256, tpm2_hash_algorithm := .sha256 },
      tpm_pcr_selection := [[], [0, 1, 2, 3, 4, 5, 6, 7, 10], [], []],
      use_dtls_psk := false, dtls_psk_identity := "Charra Verifier" }).2
    (Or.inl rfl)
